import Mathlib

/-!
Verification of the goinggo/task process supervisor and mongo session pool
manager against its natural-language specification.

The Go source is shallowly embedded:

* Errors (`error` values) are `Option GoErr`, `none` standing for `nil`.
* A Go function body that may `panic` is a `PanicOr α` value: either a
  normal return carrying the named return values, or a panic carrying the
  message and the named return values as they stood when the panic fired.
* `helper.CatchPanic` / `helper.CatchPanicSystem` (src/helper/catch.go) are
  the deferred recovery handlers: they recover a panic, and write
  `*err = fmt.Errorf(r)` only when the error pointer passed to them is
  non-nil; with a nil pointer the panic is swallowed.
* The supervisor's `select` race (src/controller/controller.go, final
  revision) is embedded as a fold over the sequence of channel events in
  the order the `select` observes them; "first event observed wins" is the
  order of the list.
* `os.Exit` is a distinguished terminal outcome: once reached, nothing
  later in the program runs (deferred handlers included).
-/

abbrev GoErr := String

/-- A Go function body that may panic: `ret` is a normal return, `panicked`
carries the panic message and the named return values at the moment the
panic was raised. -/
inductive PanicOr (α : Type) where
  | ret (val : α)
  | panicked (msg : String) (valAtPanic : α)
  deriving DecidableEq, Repr

namespace helper

/-- `defer helper.CatchPanic(nil, ...)` (src/helper/catch.go lines 36-49
with a nil error pointer): any panic in the body is recovered and logged,
`*err` is not written, and the function returns whatever its named return
values held when the panic fired. -/
def CatchPanicNil {α : Type} : PanicOr α → α
  | .ret v => v
  | .panicked _ v => v

/-- `defer helper.CatchPanic(&err, ...)`: any panic in the body is
recovered and `err` is overwritten with an error built from the panic
value; the other named returns keep their value at the panic. The pair's
second component is the named `err` return. -/
def CatchPanicErr {α : Type} : PanicOr (α × Option GoErr) → α × Option GoErr
  | .ret v => v
  | .panicked msg (a, _) => (a, some msg)

end helper

namespace controller

/-- The channel events `start`'s `select` can observe, in observation
order: an OS interrupt on `sigChan`, the firing of the `timeout` channel,
or the task's completion notification on `complete` carrying the task's
error. -/
inductive Event where
  | sig
  | timeout
  | complete (err : Option GoErr)
  deriving DecidableEq, Repr

/-- How `start` (src/controller/controller.go lines 318-358) leaves the
process: it either returns an error value with the shutdown flag in some
state, or `os.Exit` is reached inside the loop. -/
inductive StartResult where
  | returned (err : Option GoErr) (shutdown : Nat)
  | exited (code : Nat)
  deriving DecidableEq, Repr

/-- The `ControlLoop` of `start`: `sig` stores 1 into the shutdown flag and
continues waiting; `timeout` calls `os.Exit(1)`; `complete` binds the task
error and breaks the loop. `none` models a run whose trace never delivers
a resolving event (the `select` still blocked). -/
def startLoop (shutdown : Nat) : List Event → Option StartResult
  | [] => none
  | .sig :: rest => startLoop 1 rest
  | .timeout :: _ => some (.exited 1)
  | .complete e :: _ => some (.returned e shutdown)

/-- `IsShutdown` (lines 264-272): loads the flag and compares with 1. -/
def IsShutdown (shutdown : Nat) : Bool :=
  if shutdown = 1 then true else false

/-- Outcome of `init` (lines 277-295): `os.Exit` reached inside the body
(via `log.Fatalf` on a missing environment variable, or via the deferred
recover handler on a panic), or a normal nil-error return. -/
inductive InitOutcome where
  | exited (code : Nat)
  | ok
  deriving DecidableEq, Repr

/-- `init`: checks `os.Getenv(environment)` against the empty string and
calls `log.Fatalf` (exit 1) when empty; a panic anywhere later in the body
(straps load, log configuration) hits the deferred recover which calls
`os.Exit(1)`. On the non-panicking path the named `err` is never set, so
`init` returns nil. `envValue` is the value of the environment variable
named by the user task's `StrapEnv`; `panicMsg` is `some m` when the body
panics after the environment check. -/
def init (envValue : String) (panicMsg : Option String) : InitOutcome :=
  if envValue = "" then .exited 1
  else
    match panicMsg with
    | some _ => .exited 1
    | none => .ok

/-- The observable steps `Run` performs, in order. -/
inductive Action where
  | initCall
  | startCall
  | launchTask
  | startRet
  | stopCall
  | exitProc (code : Nat)
  deriving DecidableEq, Repr

/-- How the process run ends: `exit c` is `os.Exit(c)`; `ret v` is `Run`
returning its named `osExit` value to the caller; `blocked` is a trace on
which the race never resolves. -/
inductive RunOutcome where
  | exit (code : Nat)
  | ret (osExit : Nat)
  | blocked
  deriving DecidableEq, Repr

structure RunResult where
  actions : List Action
  outcome : RunOutcome
  deriving DecidableEq, Repr

/-- `Run` (lines 236-261): calls `init`; on init failure the process has
already exited inside `init` (and the `err != nil` check cannot fire,
since `init`'s recover path exits instead of returning an error). It then
calls `start` (which launches the task goroutine before entering the
loop), then `stop`, then exits 1 when `start` returned a non-nil error,
else returns the never-assigned named return `osExit = 0`. -/
def Run (envValue : String) (initPanic : Option String) (events : List Event) :
    RunResult :=
  match init envValue initPanic with
  | .exited c => ⟨[.initCall, .exitProc c], .exit c⟩
  | .ok =>
    match startLoop 0 events with
    | none => ⟨[.initCall, .startCall, .launchTask], .blocked⟩
    | some (.exited c) =>
        ⟨[.initCall, .startCall, .launchTask, .exitProc c], .exit c⟩
    | some (.returned (some _) _) =>
        ⟨[.initCall, .startCall, .launchTask, .startRet, .stopCall,
          .exitProc 1], .exit 1⟩
    | some (.returned none _) =>
        ⟨[.initCall, .startCall, .launchTask, .startRet, .stopCall], .ret 0⟩

/-- The process exit status of a run: the code passed to `os.Exit`, or the
value `Run` hands back to its caller; `none` for a blocked run. -/
def exitStatus (r : RunResult) : Option Nat :=
  match r.outcome with
  | .exit c => some c
  | .ret v => some v
  | .blocked => none

end controller

/-!
Session pool manager. `mongo` embeds the final revision
(src/unnamed/part_001); `mongoOld` embeds the earlier revision
(src/mongo/mongo.go). An `mgo.Session` is opaque to this code: what
matters is its identity (which master connection it derives from) and
whether its `Close`/`Copy`/`Clone` calls would panic in a given run, so
those are its fields.
-/

/-- An `mgo.Session` handle: `master` is the identity of the underlying
authenticated connection; `closePanics` says whether `Close()` on this
handle panics in the run being modelled. -/
structure MgoSession where
  master : Nat
  closePanics : Bool
  deriving DecidableEq, Repr

/-- `mgo.DialInfo` as built by `CreateSession`. -/
structure DialInfo where
  addrs : List String
  timeout : Nat
  database : String
  username : String
  password : String
  deriving DecidableEq, Repr

/-- The environment's response to `mgo.DialWithInfo`: a live session, a
dial error, or a panic raised inside the dial (or anywhere else in the
body before the registry insert, e.g. a nil singleton map). -/
inductive DialResult where
  | ok (s : MgoSession)
  | fail (e : GoErr)
  | panics (msg : String)
  deriving DecidableEq, Repr

namespace mongo

/-- `mongoSession` (part_001 lines 38-41): dial info plus the established
master session. -/
structure MongoSession where
  mongoDBDialInfo : DialInfo
  mongoSession : MgoSession
  deriving DecidableEq, Repr

/-- The manager's `sessions` map, name to entry. Keys are unique; Go map
iteration order is irrelevant to every property proved here. -/
abbrev Registry := List (String × MongoSession)

/-- Go map assignment `sessions[name] = v`: replaces any entry under the
same key, otherwise adds one. -/
def mapSet (reg : Registry) (name : String) (v : MongoSession) : Registry :=
  (name, v) :: reg.filter (fun p => p.1 ≠ name)

/-- Go map read `sessions[name]`: the entry, or `none` (a nil pointer) when
absent. -/
def mapGet (reg : Registry) (name : String) : Option MongoSession :=
  (reg.find? (fun p => p.1 = name)).map (fun p => p.2)

/-- Body of `CreateSession` (part_001 lines 96-137) before the deferred
handler: builds the dial info (60 s connect timeout), dials; on a dial
error returns it with the registry untouched; on success configures the
session and inserts the entry under `sessionName`; a panic leaves the
named `err` nil and the registry untouched. -/
def createSessionBody (reg : Registry) (sessionName : String)
    (hosts : List String) (databaseName username password : String)
    (dial : DialResult) : PanicOr (Registry × Option GoErr) :=
  let info : DialInfo :=
    ⟨hosts, 60, databaseName, username, password⟩
  match dial with
  | .fail e => .ret (reg, some e)
  | .ok s => .ret (mapSet reg sessionName ⟨info, s⟩, none)
  | .panics m => .panicked m (reg, none)

/-- `CreateSession`: the body under `defer helper.CatchPanic(nil, ...)`
(line 97) — the error pointer is nil, so a panic is swallowed and the
function returns the registry unchanged with a nil error. -/
def CreateSession (reg : Registry) (sessionName : String)
    (hosts : List String) (databaseName username password : String)
    (dial : DialResult) : Registry × Option GoErr :=
  helper.CatchPanicNil
    (createSessionBody reg sessionName hosts databaseName username password dial)

/-- `session.mongoSession.Copy()` / `.Clone()`: a fresh handle derived from
the same master connection. -/
def derive (s : MgoSession) : MgoSession :=
  ⟨s.master, s.closePanics⟩

/-- Body of `CopySession` (part_001 lines 145-164): looks the name up; a
nil entry yields the `Unable To Locate Session` error with a nil session;
otherwise `Copy()` runs, which panics in runs where `copyPanics` holds. -/
def copySessionBody (reg : Registry) (useSession : String)
    (copyPanics : Bool) : PanicOr (Option MgoSession × Option GoErr) :=
  match mapGet reg useSession with
  | none => .ret (none, some ("Unable To Locate Session " ++ useSession))
  | some session =>
      if copyPanics then .panicked "Copy panic" (none, none)
      else .ret (some (derive session.mongoSession), none)

/-- `CopySession`: the body under `defer helper.CatchPanic(nil, ...)`
(line 146). -/
def CopySession (reg : Registry) (useSession : String) (copyPanics : Bool) :
    Option MgoSession × Option GoErr :=
  helper.CatchPanicNil (copySessionBody reg useSession copyPanics)

/-- Body of `CloneSession` (part_001 lines 172-191): same shape as
`CopySession` with `Clone()` in place of `Copy()`. -/
def cloneSessionBody (reg : Registry) (useSession : String)
    (clonePanics : Bool) : PanicOr (Option MgoSession × Option GoErr) :=
  match mapGet reg useSession with
  | none => .ret (none, some ("Unable To Locate Session " ++ useSession))
  | some session =>
      if clonePanics then .panicked "Clone panic" (none, none)
      else .ret (some (derive session.mongoSession), none)

/-- `CloneSession`: the body under `defer helper.CatchPanic(nil, ...)`
(line 173). -/
def CloneSession (reg : Registry) (useSession : String) (clonePanics : Bool) :
    Option MgoSession × Option GoErr :=
  helper.CatchPanicNil (cloneSessionBody reg useSession clonePanics)

/-- Body of `CloseSession` (part_001 lines 194-202): `mongoSession.Close()`,
which panics on handles whose `closePanics` holds. -/
def closeSessionBody (s : MgoSession) : PanicOr Unit :=
  if s.closePanics then .panicked "Close panic" () else .ret ()

/-- `CloseSession`: the body under `defer helper.CatchPanic(nil, ...)`
(line 195) — total: every panic is recovered inside the call. -/
def CloseSession (s : MgoSession) : Unit :=
  helper.CatchPanicNil (closeSessionBody s)

/-- A call to `CloseSession` as seen by a caller: it cannot re-raise, so it
is always a normal return. Stated as a `PanicOr` so that `Shutdown`'s loop
genuinely depends on the call not panicking. -/
def closeSessionCall (s : MgoSession) : PanicOr Unit :=
  .ret (CloseSession s)

/-- A Go statement sequence running `f` on each element: an escaped panic
in one call aborts the remaining iterations. Returns the elements whose
call was attempted and the escaped panic, if any. -/
def forEachPanicOr {σ : Type} (f : σ → PanicOr Unit) :
    List σ → List σ × Option String
  | [] => ([], none)
  | x :: xs =>
    match f x with
    | .ret _ =>
        let r := forEachPanicOr f xs
        (x :: r.1, r.2)
    | .panicked m _ => ([x], some m)

/-- `Shutdown` (part_001 lines 81-93): iterates the registry calling
`CloseSession` on each entry's master session, all under
`defer helper.CatchPanic(&err, ...)`. Returns the sessions whose close was
attempted and the named `err`. -/
def Shutdown (reg : Registry) : List MgoSession × Option GoErr :=
  helper.CatchPanicErr
    (match forEachPanicOr closeSessionCall (reg.map (fun p => p.2.mongoSession)) with
     | (attempted, none) => .ret (attempted, none)
     | (attempted, some m) => .panicked m (attempted, none))

end mongo

namespace mongoOld

/-- `_MongoSession` (src/mongo/mongo.go lines 29-32). -/
structure MongoSession where
  mongoDBDialInfo : DialInfo
  mongoSession : MgoSession
  deriving DecidableEq, Repr

abbrev Registry := List (String × MongoSession)

/-- Body of `CreateSession` (mongo.go lines 99-143): same shape as the
final revision but with a 10 s connect timeout. -/
def createSessionBody (reg : Registry) (sessionName : String)
    (hosts : List String) (databaseName username password : String)
    (dial : DialResult) : PanicOr (Registry × Option GoErr) :=
  let info : DialInfo :=
    ⟨hosts, 10, databaseName, username, password⟩
  match dial with
  | .fail e => .ret (reg, some e)
  | .ok s =>
      .ret ((sessionName, (⟨info, s⟩ : MongoSession)) ::
              reg.filter (fun p => p.1 ≠ sessionName), none)
  | .panics m => .panicked m (reg, none)

/-- `CreateSession` under `defer helper.CatchPanicSystem(nil, ...)`
(line 101). -/
def CreateSession (reg : Registry) (sessionName : String)
    (hosts : List String) (databaseName username password : String)
    (dial : DialResult) : Registry × Option GoErr :=
  helper.CatchPanicNil
    (createSessionBody reg sessionName hosts databaseName username password dial)

/-- Body of `CopySession` (mongo.go lines 155-176): on a missing name it
logs `Unable To Locate Session` and returns — but never assigns the named
`err`, so the caller receives a nil session with a nil error. -/
def copySessionBody (reg : Registry) (useSession : String)
    (copyPanics : Bool) : PanicOr (Option MgoSession × Option GoErr) :=
  match (reg.find? (fun p => p.1 = useSession)).map (fun p => p.2) with
  | none => .ret (none, none)
  | some session =>
      if copyPanics then .panicked "Copy panic" (none, none)
      else .ret (some (mongo.derive session.mongoSession), none)

/-- `CopySession` under `defer helper.CatchPanicSystem(nil, ...)`
(line 157). -/
def CopySession (reg : Registry) (useSession : String) (copyPanics : Bool) :
    Option MgoSession × Option GoErr :=
  helper.CatchPanicNil (copySessionBody reg useSession copyPanics)

end mongoOld

/-! ## Helper lemmas -/

namespace controller

/-- A run of interrupt events before the timeout leaves the loop waiting;
the timeout then exits the process with code 1, whatever follows it. -/
theorem startLoop_sigs_then_timeout (sd : Nat) (pre post : List Event)
    (hpre : ∀ e ∈ pre, e = Event.sig) :
    startLoop sd (pre ++ Event.timeout :: post) =
      some (StartResult.exited 1) := by
  induction pre generalizing sd with
  | nil => rfl
  | cons e es ih =>
    have he : e = Event.sig := hpre e (List.mem_cons_self e es)
    subst he
    exact ih 1 (fun e' h' => hpre e' (List.mem_cons_of_mem _ h'))

/-- The only exit the loop itself performs is `os.Exit(1)`. -/
theorem startLoop_exited_code (sd : Nat) (events : List Event) (c : Nat)
    (h : startLoop sd events = some (StartResult.exited c)) : c = 1 := by
  induction events generalizing sd with
  | nil => exact absurd h (by simp [startLoop])
  | cons e es ih =>
    cases e with
    | sig => exact ih 1 h
    | timeout =>
      simp only [startLoop, Option.some.injEq, StartResult.exited.injEq] at h
      exact h.symm
    | complete err => simp [startLoop] at h

/-- Once the flag holds 1 it still holds 1 when the loop resolves. -/
theorem startLoop_flag_stays (events : List Event) (e : Option GoErr)
    (sd' : Nat) (h : startLoop 1 events = some (StartResult.returned e sd')) :
    sd' = 1 := by
  induction events with
  | nil => exact absurd h (by simp [startLoop])
  | cons ev es ih =>
    cases ev with
    | sig => exact ih h
    | timeout => simp [startLoop] at h
    | complete err =>
      simp only [startLoop, Option.some.injEq, StartResult.returned.injEq] at h
      exact h.2.symm

/-- The flag at resolution is the initial flag, unless an interrupt event
occurred, which stored 1. -/
theorem startLoop_flag_source (sd : Nat) (events : List Event)
    (e : Option GoErr) (sd' : Nat)
    (h : startLoop sd events = some (StartResult.returned e sd')) :
    sd' = sd ∨ (sd' = 1 ∧ Event.sig ∈ events) := by
  induction events generalizing sd with
  | nil => exact absurd h (by simp [startLoop])
  | cons ev es ih =>
    cases ev with
    | sig =>
      right
      exact ⟨startLoop_flag_stays es e sd' h, List.mem_cons_self _ _⟩
    | timeout => simp [startLoop] at h
    | complete err =>
      left
      simp only [startLoop, Option.some.injEq, StartResult.returned.injEq] at h
      exact h.2.symm

end controller

namespace mongo

/-- `CloseSession` recovers every panic, so the shutdown loop attempts
every close and no panic escapes. -/
theorem forEachPanicOr_close_all (l : List MgoSession) :
    forEachPanicOr closeSessionCall l = (l, none) := by
  induction l with
  | nil => rfl
  | cons x xs ih => simp [forEachPanicOr, closeSessionCall, ih]

end mongo

/-! ## The claims -/

/-- Claim C1: whenever the timeout event is observed before the task's
completion notification (only interrupt events precede it in the trace),
`start` takes the timeout path: the loop resolves with `os.Exit(1)`, so the
whole run terminates the process with status 1, and nothing after the
timeout event — in particular a later completion — is ever observed (the
result does not depend on `post`). -/
theorem C1_timeout_precedence (sd : Nat)
    (pre post : List controller.Event) (envValue : String)
    (initPanic : Option String)
    (hpre : ∀ e ∈ pre, e = controller.Event.sig)
    (henv : envValue ≠ "") (hpanic : initPanic = none) :
    controller.startLoop sd (pre ++ controller.Event.timeout :: post) =
      some (controller.StartResult.exited 1) ∧
    (controller.Run envValue initPanic
        (pre ++ controller.Event.timeout :: post)).outcome =
      controller.RunOutcome.exit 1 ∧
    controller.exitStatus
        (controller.Run envValue initPanic
          (pre ++ controller.Event.timeout :: post)) = some 1 := by
  have hloop := controller.startLoop_sigs_then_timeout sd pre post hpre
  have hloop0 := controller.startLoop_sigs_then_timeout 0 pre post hpre
  refine ⟨hloop, ?_, ?_⟩ <;>
    simp [controller.Run, controller.init, henv, hpanic, hloop0,
      controller.exitStatus]

/-- Witness for C1 at a concrete trace: one interrupt, then the timeout,
then a completion that is never observed. -/
theorem C1_timeout_precedence_witness :
    controller.startLoop 0
        ([controller.Event.sig] ++ controller.Event.timeout ::
          [controller.Event.complete none]) =
      some (controller.StartResult.exited 1) ∧
    (controller.Run "DEV" none
        ([controller.Event.sig] ++ controller.Event.timeout ::
          [controller.Event.complete none])).outcome =
      controller.RunOutcome.exit 1 ∧
    controller.exitStatus
        (controller.Run "DEV" none
          ([controller.Event.sig] ++ controller.Event.timeout ::
            [controller.Event.complete none])) = some 1 :=
  C1_timeout_precedence 0 [controller.Event.sig]
    [controller.Event.complete none] "DEV" none (by decide) (by decide) rfl

/-- Claim C2 counterexample: the claim says `stop` (Close) is invoked
exactly once even when the timeout path is taken, but on a run whose trace
is just the timeout event, `os.Exit(1)` fires inside `start`; `start`
never returns and `stop` is never invoked. -/
theorem C2_close_skipped_on_timeout :
    (controller.Run "PROD" none [controller.Event.timeout]).actions.count
        controller.Action.stopCall = 0 ∧
    controller.Action.stopCall ∉
      (controller.Run "PROD" none [controller.Event.timeout]).actions ∧
    (controller.Run "PROD" none [controller.Event.timeout]).outcome =
      controller.RunOutcome.exit 1 := by
  refine ⟨?_, ?_, ?_⟩ <;> decide

/-- Claim C2 as amended: `stop` runs exactly once, immediately after
`start` returns, exactly on the runs where `start` does return (init
succeeded and the race resolved through the completion channel); on the
timeout path the process exits inside `start` and `stop` never runs. -/
theorem C2_close_after_start (envValue : String) (initPanic : Option String)
    (events : List controller.Event) :
    ((controller.Run envValue initPanic events).actions.count
        controller.Action.stopCall = 1 ↔
      envValue ≠ "" ∧ initPanic = none ∧
        ∃ e sd, controller.startLoop 0 events =
          some (controller.StartResult.returned e sd)) ∧
    (∀ e sd, controller.startLoop 0 events =
        some (controller.StartResult.returned e sd) →
      envValue ≠ "" → initPanic = none →
      ∃ tail, (controller.Run envValue initPanic events).actions =
        [controller.Action.initCall, controller.Action.startCall,
         controller.Action.launchTask, controller.Action.startRet,
         controller.Action.stopCall] ++ tail) := by
  by_cases he : envValue = ""
  · constructor
    · simp [controller.Run, controller.init, he, List.count_cons]
    · intro e sd _ h1 _
      exact absurd he h1
  · cases hp : initPanic with
    | some m =>
      constructor
      · simp [controller.Run, controller.init, he, List.count_cons]
      · intro e sd _ _ h2
        simp at h2
    | none =>
      cases hs : controller.startLoop 0 events with
      | none =>
        constructor
        · simp [controller.Run, controller.init, he, hs, List.count_cons]
        · intro e sd h _ _
          simp at h
      | some r =>
        cases r with
        | exited c =>
          constructor
          · simp [controller.Run, controller.init, he, hs, List.count_cons]
          · intro e sd h _ _
            simp at h
        | returned e sd =>
          constructor
          · cases e with
            | none =>
              simp [controller.Run, controller.init, he, hs, List.count_cons]
            | some m =>
              simp [controller.Run, controller.init, he, hs, List.count_cons]
          · intro e' sd' _ _ _
            cases e with
            | none =>
              exact ⟨[], by simp [controller.Run, controller.init, he, hs]⟩
            | some m =>
              exact ⟨[controller.Action.exitProc 1],
                by simp [controller.Run, controller.init, he, hs]⟩

/-- Witness for the amended C2 at a concrete run: the task completes with
a nil error, `start` returns, and `stop` runs exactly once right after. -/
theorem C2_close_after_start_witness :
    (controller.Run "PROD" none
        [controller.Event.complete none]).actions.count
      controller.Action.stopCall = 1 :=
  (C2_close_after_start "PROD" none [controller.Event.complete none]).1.mpr
    ⟨by decide, rfl, none, 0, rfl⟩

/-- Claim C3: the run's exit status is 0 exactly when init succeeded (the
environment variable is set and init did not panic) and the race resolved
with a nil task error; and every terminating run exits with status 0 or
1. Contrapositively the status is non-zero exactly on init failure, a
non-nil task error, or the timeout path. -/
theorem C3_exit_status_iff (envValue : String) (initPanic : Option String)
    (events : List controller.Event) :
    (controller.exitStatus (controller.Run envValue initPanic events) =
        some 0 ↔
      envValue ≠ "" ∧ initPanic = none ∧
        ∃ sd, controller.startLoop 0 events =
          some (controller.StartResult.returned none sd)) ∧
    (controller.exitStatus (controller.Run envValue initPanic events) =
        none ∨
     controller.exitStatus (controller.Run envValue initPanic events) =
        some 0 ∨
     controller.exitStatus (controller.Run envValue initPanic events) =
        some 1) := by
  by_cases he : envValue = ""
  · simp [controller.Run, controller.init, he, controller.exitStatus]
  · cases hp : initPanic with
    | some m => simp [controller.Run, controller.init, he, controller.exitStatus]
    | none =>
      cases hs : controller.startLoop 0 events with
      | none =>
        simp [controller.Run, controller.init, he, hs, controller.exitStatus]
      | some r =>
        cases r with
        | exited c =>
          have hc := controller.startLoop_exited_code 0 events c hs
          subst hc
          simp [controller.Run, controller.init, he, hs, controller.exitStatus]
        | returned e sd =>
          cases e with
          | none =>
            simp [controller.Run, controller.init, he, hs,
              controller.exitStatus]
          | some m =>
            simp [controller.Run, controller.init, he, hs,
              controller.exitStatus]

/-- Claim C6: with the environment variable named by the user task's
`StrapEnv` unset (empty value), `init` reaches `log.Fatalf` and the
process exits 1; `start` is never called and the user task is never
launched, whatever the rest of the run would have held. -/
theorem C6_missing_env_aborts (initPanic : Option String)
    (events : List controller.Event) :
    controller.Run "" initPanic events =
      ⟨[controller.Action.initCall, controller.Action.exitProc 1],
        controller.RunOutcome.exit 1⟩ ∧
    controller.Action.startCall ∉
      (controller.Run "" initPanic events).actions ∧
    controller.Action.launchTask ∉
      (controller.Run "" initPanic events).actions := by
  have h : controller.Run "" initPanic events =
      ⟨[controller.Action.initCall, controller.Action.exitProc 1],
        controller.RunOutcome.exit 1⟩ := rfl
  refine ⟨h, ?_, ?_⟩ <;> rw [h] <;> decide

/-- Claim C7: the shutdown flag only moves from 0 to 1. The interrupt
handler stores 1 and the loop keeps waiting (the race continues on the
rest of the trace); once the flag is 1 it is still 1 whenever the race
resolves; the flag at resolution is the initial value unless an interrupt
event — the only writer — occurred; and `IsShutdown` reads 1 as `true`. -/
theorem C7_shutdown_flag_write_once :
    (∀ sd rest, controller.startLoop sd (controller.Event.sig :: rest) =
        controller.startLoop 1 rest) ∧
    (∀ events e sd', controller.startLoop 1 events =
        some (controller.StartResult.returned e sd') → sd' = 1) ∧
    (∀ sd events e sd', controller.startLoop sd events =
        some (controller.StartResult.returned e sd') →
      sd' = sd ∨ (sd' = 1 ∧ controller.Event.sig ∈ events)) ∧
    controller.IsShutdown 1 = true ∧ controller.IsShutdown 0 = false :=
  ⟨fun _ _ => rfl, controller.startLoop_flag_stays,
    controller.startLoop_flag_source, rfl, rfl⟩

/-- Claim C9: `Run`'s named return `osExit` is never assigned, and every
failure path calls `os.Exit(1)` instead of returning, so whenever `Run`
returns at all, the value its caller observes is 0. -/
theorem C9_run_return_is_zero (envValue : String) (initPanic : Option String)
    (events : List controller.Event) (v : Nat)
    (h : (controller.Run envValue initPanic events).outcome =
      controller.RunOutcome.ret v) : v = 0 := by
  simp only [controller.Run] at h
  cases hi : controller.init envValue initPanic <;> rw [hi] at h
  · simp at h
  · cases hs : controller.startLoop 0 events <;> rw [hs] at h
    · simp at h
    · rename_i r
      cases r with
      | exited c => simp at h
      | returned e sd =>
        cases e with
        | none =>
          simp at h
          exact h.symm
        | some m => simp at h

/-- Witness for C9 at a concrete run that returns: the task completes with
a nil error and `Run` hands back 0. -/
theorem C9_run_return_is_zero_witness :
    (controller.Run "DEV" none [controller.Event.complete none]).outcome =
      controller.RunOutcome.ret 0 ∧ (0 : Nat) = 0 :=
  ⟨rfl, C9_run_return_is_zero "DEV" none [controller.Event.complete none] 0 rfl⟩

/-- Claim C4 counterexample: in the earlier revision of the session pool
(src/mongo/mongo.go), `CopySession` on a name absent from the registry
logs and returns without ever assigning the named `err`, so the caller
receives a nil session together with a nil error — not the non-nil
not-found error the claim asserts for every acquisition entry point. -/
theorem C4_old_copy_nil_error :
    mongoOld.CopySession [] "missing" false = (none, none) := rfl

/-- Claim C4 as amended: in the final revision (src/unnamed/part_001),
`CopySession` and `CloneSession` on an absent name return a nil session
with the non-nil `Unable To Locate Session` error — and that branch is a
plain return of the body, not a panic — while on a present name they
return a non-nil handle derived from the entry's master session. -/
theorem C4_acquire_session (reg : mongo.Registry) (name : String) :
    (mongo.mapGet reg name = none →
      mongo.CopySession reg name false =
        (none, some ("Unable To Locate Session " ++ name)) ∧
      mongo.CloneSession reg name false =
        (none, some ("Unable To Locate Session " ++ name)) ∧
      mongo.copySessionBody reg name false =
        PanicOr.ret (none, some ("Unable To Locate Session " ++ name))) ∧
    (∀ s, mongo.mapGet reg name = some s →
      (mongo.CopySession reg name false).1 =
        some (mongo.derive s.mongoSession) ∧
      (mongo.CopySession reg name false).2 = none ∧
      (mongo.CloneSession reg name false).1 =
        some (mongo.derive s.mongoSession) ∧
      (mongo.CloneSession reg name false).2 = none) := by
  constructor
  · intro h
    refine ⟨?_, ?_, ?_⟩ <;>
      simp [mongo.CopySession, mongo.CloneSession, mongo.copySessionBody,
        mongo.cloneSessionBody, helper.CatchPanicNil, h]
  · intro s h
    refine ⟨?_, ?_, ?_, ?_⟩ <;>
      simp [mongo.CopySession, mongo.CloneSession, mongo.copySessionBody,
        mongo.cloneSessionBody, helper.CatchPanicNil, h]

/-- Claim C5: a dial failure makes `CreateSession` return the dial error
and leave the registry exactly as it was — no entry is published under the
requested name and no existing entry changes — in both revisions of the
session pool. -/
theorem C5_create_session_dial_failure (reg : mongo.Registry)
    (regOld : mongoOld.Registry) (name : String) (hosts : List String)
    (db user pass : String) (e : GoErr) :
    mongo.CreateSession reg name hosts db user pass (DialResult.fail e) =
      (reg, some e) ∧
    mongoOld.CreateSession regOld name hosts db user pass
        (DialResult.fail e) = (regOld, some e) :=
  ⟨rfl, rfl⟩

/-- Claim C8: `Shutdown` attempts `CloseSession` on every registry entry's
master session — even when closing some of them panics, since each
`CloseSession` call recovers its own panic — and `Shutdown` itself reports
a nil error. -/
theorem C8_shutdown_closes_all (reg : mongo.Registry) :
    (mongo.Shutdown reg).1 = reg.map (fun p => p.2.mongoSession) ∧
    (mongo.Shutdown reg).1.length = reg.length ∧
    (mongo.Shutdown reg).2 = none := by
  have h := mongo.forEachPanicOr_close_all
    (reg.map (fun p => p.2.mongoSession))
  refine ⟨?_, ?_, ?_⟩ <;>
    simp [mongo.Shutdown, h, helper.CatchPanicErr]

/-- Claim C10: all four session operations install their panic handler
with a nil error pointer, so an in-body panic is swallowed: the function
returns its zero values with a nil error, indistinguishable from success.
In particular `CreateSession` whose dial panics reports a nil error and
publishes nothing, `CopySession`/`CloneSession` whose `Copy`/`Clone`
panics return a nil session with a nil error, and a panicking
`CloseSession` body still yields a normal return to the caller. -/
theorem C10_panics_swallowed :
    (∀ (reg : mongo.Registry) (name : String) (hosts : List String)
        (db user pass m : String),
      mongo.CreateSession reg name hosts db user pass
          (DialResult.panics m) = (reg, none)) ∧
    (∀ (reg : mongo.Registry) (name : String) (s : mongo.MongoSession),
      mongo.mapGet reg name = some s →
      mongo.CopySession reg name true = (none, none)) ∧
    (∀ (reg : mongo.Registry) (name : String) (s : mongo.MongoSession),
      mongo.mapGet reg name = some s →
      mongo.CloneSession reg name true = (none, none)) ∧
    (∀ s : MgoSession, s.closePanics = true →
      mongo.closeSessionBody s = PanicOr.panicked "Close panic" () ∧
      mongo.closeSessionCall s = PanicOr.ret (mongo.CloseSession s)) := by
  refine ⟨fun reg name hosts db user pass m => rfl, ?_, ?_, ?_⟩
  · intro reg name s h
    simp [mongo.CopySession, mongo.copySessionBody, helper.CatchPanicNil, h]
  · intro reg name s h
    simp [mongo.CloneSession, mongo.cloneSessionBody, helper.CatchPanicNil, h]
  · intro s h
    exact ⟨by simp [mongo.closeSessionBody, h], rfl⟩
